import Mathlib

/-!
Shallow embedding of the signalboard-v2 refresh/cache core
(`src/core/bg.py`, `src/core/cache.py`, `src/core/view.py`,
`src/core/registry.py`, `src/signals/__init__.py`, `src/signals/base.py`)
and proofs of the specification claims about it.

Modelling conventions:
  * Python `datetime` values are epoch timestamps, modelled as `Int` seconds.
  * A time-zone (`ZoneInfo`) is modelled as the function it induces from an
    epoch timestamp to a local calendar date (an `Int` day index): the code
    only ever compares `ts.astimezone(tz).date()` values.
  * The float `timeout_s` is carried in centiseconds (`Nat`), which is exact
    for the values the code formats with two decimal places.
  * Exceptions are modelled as data (`ProbeBehaviour.raises`, `FetchExec`),
    and every engine function is total: a Lean function returning a plain
    `SignalResult` is the image of Python code that can never raise.
-/

namespace SignalBoard

/-- Result record produced by a probe or synthesized by the engine
(`signals/base.py`, dataclass `SignalResult`). `status` is one of the
strings `ok`, `warn`, `bad`, `unknown` in the code's own constructions,
but the field itself is a plain string, as in the source. -/
structure SignalResult where
  status : String
  value : String
  ts : Int
  details : Option String := none
  link : Option String := none
  deriving DecidableEq, Repr

/-- Static metadata of a probe (`signals/base.py`, dataclass `SignalMeta`).
`timeout_s` is kept in centiseconds. -/
structure SignalMeta where
  id : String
  title : String
  poll_interval_s : Nat := 60
  timeout_cs : Nat := 200
  deriving DecidableEq, Repr

/-- Behaviour of one call of a probe's `fetch()`: it either returns a result
or raises an exception, modelled by the exception's type name and message. -/
inductive ProbeBehaviour where
  | returns (r : SignalResult)
  | raises (excName excMsg : String)
  deriving DecidableEq, Repr

/-- Embedding of `_safe_fetch` (`core/bg.py` lines 28-38): run the probe's
fetch and convert a raised exception into a `bad` result whose `details`
holds `f"{type(exc).__name__}: {exc}"`. `now` is the engine's clock reading
(`_now_utc()`). -/
def safeFetch (now : Int) : ProbeBehaviour → SignalResult
  | .returns r => r
  | .raises excName excMsg =>
      { status := "bad", value := "fetch failed", ts := now,
        details := some (excName ++ ": " ++ excMsg) }

/-- Python `f"{x:.2f}"` on a timeout held exactly in centiseconds:
the integer part, a dot, and the two-digit fractional part. -/
def fmtCs (cs : Nat) : String :=
  toString (cs / 100) ++ "." ++
    (if cs % 100 < 10 then "0" ++ toString (cs % 100) else toString (cs % 100))

/-- Outcome of running the guarded fetch under `asyncio.wait_for`:
the guarded call completes within the deadline, the deadline fires
(`asyncio.TimeoutError`), or some other exception surfaces inside the
orchestration code itself. -/
inductive FetchExec where
  | completes (b : ProbeBehaviour)
  | timesOut
  | orchFails (excName excMsg : String)
  deriving DecidableEq, Repr

/-- Embedding of the foreground branch of `run_one` inside
`SignalEngine.refresh` (`core/bg.py` lines 139-164): `_safe_fetch` under
`asyncio.wait_for(…, timeout=timeout_s)`, with `TimeoutError` mapped to a
`bad`/`timeout` result and any other exception to a `bad`/`error` result. -/
def runOne (now : Int) (timeout_cs : Nat) : FetchExec → SignalResult
  | .completes b => safeFetch now b
  | .timesOut =>
      { status := "bad", value := "timeout", ts := now,
        details := some ("Exceeded " ++ fmtCs timeout_cs ++ "s") }
  | .orchFails excName excMsg =>
      { status := "bad", value := "error", ts := now,
        details := some (excName ++ ": " ++ excMsg) }

/-- Embedding of the fetch part of `SignalEngine._run_bg_fetch`
(`core/bg.py` lines 70-89): the same wrapper as the foreground branch,
except that the timeout diagnostic reads `Exceeded {timeout_s:.2f}s
(background)`. -/
def runBgFetch (now : Int) (timeout_cs : Nat) : FetchExec → SignalResult
  | .completes b => safeFetch now b
  | .timesOut =>
      { status := "bad", value := "timeout", ts := now,
        details := some ("Exceeded " ++ fmtCs timeout_cs ++ "s (background)") }
  | .orchFails excName excMsg =>
      { status := "bad", value := "error", ts := now,
        details := some (excName ++ ": " ++ excMsg) }

/-- Per-signal projection of the engine's mutable state that
`SignalEngine._kickoff_bg` touches for one id: whether a background task for
the id is present in `_bg_tasks` and not yet done, and the cache entry for
the id. -/
structure BgEntryState where
  running : Bool
  cached : Option SignalResult
  deriving DecidableEq, Repr

/-- Outcome of one `_kickoff_bg` call: the returned result, the engine state
for the id afterwards, and whether a new background fetch task was created
(`asyncio.create_task` reached). -/
structure KickoffOutcome where
  result : SignalResult
  state : BgEntryState
  started : Bool
  deriving DecidableEq, Repr

/-- Embedding of `_is_today_local` (`core/bg.py` lines 23-25). A time zone
is modelled by the map `localDate` it induces from an epoch timestamp to a
local calendar date; the code compares `ts.astimezone(tz).date()` with
`datetime.now(tz).date()`. -/
def isTodayLocal (localDate : Int → Int) (ts now : Int) : Bool :=
  localDate ts == localDate now

/-- Final branch of `_kickoff_bg` (`core/bg.py` lines 118-127): store a
`generating...` placeholder with `details="background refresh started"`
in the cache, register a new task in the task table, and return the
placeholder. -/
def kickoffStart (now : Int) : KickoffOutcome :=
  let placeholder : SignalResult :=
    { status := "unknown", value := "generating...", ts := now,
      details := some "background refresh started" }
  { result := placeholder,
    state := { running := true, cached := some placeholder },
    started := true }

/-- Embedding of `SignalEngine._kickoff_bg` (`core/bg.py` lines 96-127),
projected to the one signal id it acts on. If a task for the id is running,
store and return the `background refresh already running` placeholder. Else,
for `capybara_wisdom` without `force`, return the cached entry when it has a
truthy value other than `generating...` dated today in the configured zone.
Otherwise store the `background refresh started` placeholder and create the
background task. -/
def kickoffBg (localDate : Int → Int) (signalId : String) (force : Bool)
    (now : Int) (st : BgEntryState) : KickoffOutcome :=
  if st.running then
    let placeholder : SignalResult :=
      { status := "unknown", value := "generating...", ts := now,
        details := some "background refresh already running" }
    { result := placeholder,
      state := { st with cached := some placeholder },
      started := false }
  else
    match st.cached with
    | some cached =>
        if signalId == "capybara_wisdom" && !force
            && (cached.value != "") && (cached.value != "generating...")
            && isTodayLocal localDate cached.ts now then
          { result := cached, state := st, started := false }
        else
          kickoffStart now
    | none => kickoffStart now

/-- Display row produced by the view builder (`core/view.py`, dataclass
`SignalView`). -/
structure SignalView where
  id : String
  title : String
  status : String
  value : String
  ts : Int
  age_s : Int
  details : Option String := none
  link : Option String := none
  deriving DecidableEq, Repr

/-- Per-meta body of the loop in `build_views` (`core/view.py` lines
28-53): look the meta's id up in the result map; synthesize the
`no data yet` view when absent, otherwise carry the result's fields with
`age_s = max(int(now - ts), 0)`. -/
def viewFor (now : Int) (results : List (String × SignalResult))
    (meta : SignalMeta) : SignalView :=
  match results.lookup meta.id with
  | none =>
      { id := meta.id, title := meta.title, status := "unknown",
        value := "no data yet", ts := now, age_s := 0 }
  | some r =>
      { id := meta.id, title := meta.title, status := r.status,
        value := r.value, ts := r.ts, age_s := max (now - r.ts) 0,
        details := r.details, link := r.link }

/-- Embedding of `build_views` (`core/view.py` lines 24-55). In the source
the clock reading `now` is taken by an internal `_now_utc()` call at entry;
the embedding necessarily passes that reading as an argument. -/
def buildViews (now : Int) (metas : List SignalMeta)
    (results : List (String × SignalResult)) : List SignalView :=
  metas.map (viewFor now results)

/-- Decimal digit to its character, for the timestamp codec. -/
def digitChar : Nat → Char
  | 0 => '0' | 1 => '1' | 2 => '2' | 3 => '3' | 4 => '4'
  | 5 => '5' | 6 => '6' | 7 => '7' | 8 => '8' | _ => '9'

/-- Character to decimal digit; `none` on a non-digit. -/
def charDigit (c : Char) : Option Nat :=
  if c = '0' then some 0 else if c = '1' then some 1
  else if c = '2' then some 2 else if c = '3' then some 3
  else if c = '4' then some 4 else if c = '5' then some 5
  else if c = '6' then some 6 else if c = '7' then some 7
  else if c = '8' then some 8 else if c = '9' then some 9 else none

/-- Little-endian decimal digits of `n`, with explicit fuel so the
definition is structural and computes inside the kernel. -/
def natDigitsFuel : Nat → Nat → List Nat
  | 0, _ => []
  | _ + 1, 0 => []
  | fuel + 1, n + 1 => ((n + 1) % 10) :: natDigitsFuel fuel ((n + 1) / 10)

/-- Little-endian decimal digits of `n` (empty for zero). -/
def natDigits (n : Nat) : List Nat := natDigitsFuel n n

/-- Value of a little-endian decimal digit list. -/
def digitsVal : List Nat → Nat
  | [] => 0
  | d :: ds => d + 10 * digitsVal ds

/-- Big-endian character rendering of a natural number. -/
def natChars (n : Nat) : List Char := (natDigits n).reverse.map digitChar

/-- Parse a list of characters as decimal digits, failing on any
non-digit. -/
def traverseDigits : List Char → Option (List Nat)
  | [] => some []
  | c :: cs =>
      match charDigit c, traverseDigits cs with
      | some d, some ds => some (d :: ds)
      | _, _ => none

/-- Parse a nonempty big-endian digit string into a natural number. -/
def parseDigits (cs : List Char) : Option Nat :=
  match cs with
  | [] => none
  | _ => (traverseDigits cs).map (fun ds => digitsVal ds.reverse)

/-- Timestamp encoding standing in for `datetime.isoformat()` in the cache
serialization (`core/cache.py` line 14): an injective rendering of the
epoch timestamp as a string, here its signed decimal numeral. -/
def isoOfTs (t : Int) : String :=
  if t < 0 then "-" ++ (if t.natAbs = 0 then "0" else String.mk (natChars t.natAbs))
  else if t.natAbs = 0 then "0" else String.mk (natChars t.natAbs)

/-- Timestamp decoding standing in for `datetime.fromisoformat` in
`_deserialize_result` (`core/cache.py` line 21): inverse of `isoOfTs`,
`none` when the string does not parse. -/
def tsOfIso (s : String) : Option Int :=
  match s.data with
  | [] => none
  | c :: cs =>
      if c = '-' then (parseDigits cs).map (fun n => -(Int.ofNat n))
      else (parseDigits (c :: cs)).map (fun n => Int.ofNat n)

/-- JSON documents, as produced by `json.loads` and consumed by
`json.dumps` in `core/cache.py`. -/
inductive Json where
  | null
  | bool (b : Bool)
  | num (n : Int)
  | str (s : String)
  | arr (elems : List Json)
  | obj (fields : List (String × Json))

/-- Python `None`-or-string to its JSON image under `json.dumps`. -/
def jsonOfOptStr : Option String → Json
  | none => .null
  | some s => .str s

/-- Embedding of `_serialize_result` (`core/cache.py` lines 12-15):
`dataclasses.asdict` lists the fields in declaration order and `ts` is
replaced by its string rendering. -/
def serializeResult (r : SignalResult) : Json :=
  .obj [("status", .str r.status), ("value", .str r.value),
        ("ts", .str (isoOfTs r.ts)),
        ("details", jsonOfOptStr r.details), ("link", jsonOfOptStr r.link)]

/-- Dictionary field lookup on a parsed JSON object. -/
def jsonGet (fields : List (String × Json)) (k : String) : Option Json :=
  fields.lookup k

/-- Python `data.get(k)` for the optional string fields: an absent key or
a JSON `null` both yield `None`. -/
def optStrOfJson : Option Json → Option String
  | some (.str s) => some s
  | _ => none

/-- Embedding of `_deserialize_result` (`core/cache.py` lines 17-24):
requires the `status`, `value` and `ts` keys (a missing key raises
`KeyError`) with `ts` a parseable timestamp string (otherwise
`fromisoformat` raises); `details` and `link` are optional. -/
def deserializeResult : Json → Option SignalResult
  | .obj fields =>
      match jsonGet fields "status", jsonGet fields "value",
            jsonGet fields "ts" with
      | some (.str status), some (.str value), some (.str tsStr) =>
          match tsOfIso tsStr with
          | some ts =>
              some { status := status, value := value, ts := ts,
                     details := optStrOfJson (jsonGet fields "details"),
                     link := optStrOfJson (jsonGet fields "link") }
          | none => none
      | _, _, _ => none
  | _ => none

/-- The loop body of `CacheStore.load` over `raw.items()`: deserialize
every entry, failing as a whole if any single entry fails. -/
def deserializeEntries : List (String × Json) →
    Option (List (String × SignalResult))
  | [] => some []
  | (sid, payload) :: rest =>
      match deserializeResult payload with
      | none => none
      | some r =>
          match deserializeEntries rest with
          | none => none
          | some out => some ((sid, r) :: out)

/-- Python dict assignment `d[k] = v` on an insertion-ordered association
list: replace in place when the key exists, append otherwise. -/
def dictSet {α : Type} : List (String × α) → String → α → List (String × α)
  | [], k, v => [(k, v)]
  | (k0, v0) :: rest, k, v =>
      if k0 = k then (k0, v) :: rest else (k0, v0) :: dictSet rest k v

/-- State of the on-disk cache file as `CacheStore.load` can observe it:
absent, unreadable or not valid JSON (`read_text`/`json.loads` raises),
or parsed into a JSON document. -/
inductive CacheFile where
  | missing
  | unreadable
  | parsed (j : Json)

/-- Embedding of `CacheStore.load` (`core/cache.py` lines 31-41) acting on
the in-memory map `_data` (`init`). A missing file returns early; any
exception — unreadable file, invalid JSON, a non-object document (so that
`raw.items()` raises), or any entry failing `_deserialize_result` — resets
`_data` to empty; otherwise every deserialized entry is assigned into
`_data` in file order. -/
def loadData (init : List (String × SignalResult)) :
    CacheFile → List (String × SignalResult)
  | .missing => init
  | .unreadable => []
  | .parsed j =>
      match j with
      | .obj fields =>
          match deserializeEntries fields with
          | some entries => entries.foldl (fun acc e => dictSet acc e.1 e.2) init
          | none => []
      | _ => []

/-- Embedding of the serialization in `CacheStore.flush` (`core/cache.py`
lines 43-49): the JSON document written to disk, one object per signal id
in map order. -/
def flushJson (data : List (String × SignalResult)) : Json :=
  .obj (data.map (fun e => (e.1, serializeResult e.2)))

/-- Python value of `getattr(sig, "meta", None)` for a discovered `SIGNAL`
object (`signals/__init__.py`). -/
structure SigDecl where
  meta : Option SignalMeta
  deriving DecidableEq, Repr

/-- One module of the `signals` package as discovery sees it: its name and
its `SIGNAL` attribute when present. -/
structure PyModule where
  name : String
  signal : Option SigDecl
  deriving DecidableEq, Repr

/-- Python `name.startswith("_")`: the first character is an underscore. -/
def startsWithUnderscore (s : String) : Bool :=
  match s.data with
  | [] => false
  | c :: _ => c == '_'

/-- The skip test of `load_signals` (`signals/__init__.py` lines 18-20). -/
def skippedModule (m : PyModule) : Bool :=
  startsWithUnderscore m.name || m.name == "base"

/-- The id extraction of `load_signals` (`signals/__init__.py` line 28):
`meta.id` when `meta` is present, with `if not sig_id` treating a missing
`meta` and an empty id alike as missing. -/
def sigIdOf (s : SigDecl) : Option String :=
  match s.meta with
  | none => none
  | some meta => if meta.id = "" then none else some meta.id

/-- The discovery loop of `load_signals` (`signals/__init__.py` lines
17-36), with `reg` the registry accumulated so far, in insertion order. -/
def loadGo : List PyModule → List (String × SigDecl) →
    Except String (List (String × SigDecl))
  | [], reg => .ok reg
  | m :: rest, reg =>
      if skippedModule m then loadGo rest reg
      else
        match m.signal with
        | none => loadGo rest reg
        | some sig =>
            match sigIdOf sig with
            | none => .error (m.name ++ ".SIGNAL missing meta.id")
            | some sid =>
                if sid ∈ reg.map Prod.fst then
                  .error ("Duplicate signal id: " ++ sid)
                else loadGo rest (reg ++ [(sid, sig)])

/-- Embedding of `load_signals` (`signals/__init__.py` lines 10-36). -/
def loadSignals (mods : List PyModule) :
    Except String (List (String × SigDecl)) :=
  loadGo mods []

/-- Registry snapshot built by `RegistryStore.reload`
(`core/registry.py` lines 22-27): the discovered registry and its metadata
list sorted case-insensitively by title. -/
structure RegistrySnapshot where
  registry : List (String × SigDecl)
  metas : List SignalMeta

/-- The ids declared by the modules that discovery actually examines (not
skipped, `SIGNAL` present): `some id` for a probe with usable metadata,
`none` for one without. -/
def declIds : List PyModule → List (Option String)
  | [] => []
  | m :: rest =>
      if skippedModule m then declIds rest
      else
        match m.signal with
        | none => declIds rest
        | some sig => sigIdOf sig :: declIds rest

/-- Embedding of `RegistryStore.reload` (`core/registry.py` lines 22-27):
run discovery — an exception propagates to the caller — then build the
title-sorted metadata list. -/
def reloadRegistry (mods : List PyModule) : Except String RegistrySnapshot :=
  match loadSignals mods with
  | .error e => .error e
  | .ok reg =>
      .ok { registry := reg,
            metas := (reg.filterMap (fun e => e.2.meta)).mergeSort
              (fun a b => a.title.toLower ≤ b.title.toLower) }

/-- C1: the per-signal fetch path is a total function from the probe's
behaviour to exactly one `SignalResult` — exceptions and timeouts are data
it consumes, never outcomes it produces. A normal return is passed through
unchanged; a raised exception yields `bad`/`fetch failed` with the
exception description in `details`; an exceeded deadline yields
`bad`/`timeout`; an orchestration-level exception yields `bad`/`error`. -/
theorem fetch_path_total_and_recovers :
    (∀ (now : Int) (cs : Nat) (r : SignalResult),
      runOne now cs (.completes (.returns r)) = r) ∧
    (∀ (now : Int) (cs : Nat) (n m : String),
      runOne now cs (.completes (.raises n m)) =
        { status := "bad", value := "fetch failed", ts := now,
          details := some (n ++ ": " ++ m) }) ∧
    (∀ (now : Int) (cs : Nat),
      (runOne now cs .timesOut).status = "bad" ∧
      (runOne now cs .timesOut).value = "timeout") ∧
    (∀ (now : Int) (cs : Nat) (n m : String),
      runOne now cs (.orchFails n m) =
        { status := "bad", value := "error", ts := now,
          details := some (n ++ ": " ++ m) }) :=
  ⟨fun _ _ _ => rfl, fun _ _ _ _ => rfl, fun _ _ => ⟨rfl, rfl⟩, fun _ _ _ _ => rfl⟩

/-- C8 counterexample: at `timeout_s = 1.00` the background path's timeout
result is not the claimed `details = "Exceeded 1.00s"`: it carries the
extra suffix ` (background)`, so the two paths are not identical. -/
theorem bg_timeout_details_differ :
    (runBgFetch 0 100 .timesOut).details = some "Exceeded 1.00s (background)" ∧
    (runOne 0 100 .timesOut).details = some "Exceeded 1.00s" ∧
    runBgFetch 0 100 .timesOut ≠ runOne 0 100 .timesOut := by
  refine ⟨rfl, rfl, ?_⟩
  decide

/-- C8 amended: the foreground and background wrappers agree exactly on a
completed fetch and on an orchestration exception; on a timeout both yield
`status=bad, value="timeout"`, the foreground `details` is
`Exceeded {timeout_s:.2f}s` and the background `details` is the same text
with ` (background)` appended. -/
theorem fetch_wrapper_fg_bg_agree :
    (∀ (now : Int) (cs : Nat) (b : ProbeBehaviour),
      runBgFetch now cs (.completes b) = runOne now cs (.completes b)) ∧
    (∀ (now : Int) (cs : Nat) (n m : String),
      runBgFetch now cs (.orchFails n m) = runOne now cs (.orchFails n m)) ∧
    (∀ (now : Int) (cs : Nat),
      runOne now cs .timesOut =
        { status := "bad", value := "timeout", ts := now,
          details := some ("Exceeded " ++ fmtCs cs ++ "s") } ∧
      runBgFetch now cs .timesOut =
        { status := "bad", value := "timeout", ts := now,
          details := some ("Exceeded " ++ fmtCs cs ++ "s (background)") }) :=
  ⟨fun _ _ _ => rfl, fun _ _ _ _ => rfl, fun _ _ => ⟨rfl, rfl⟩⟩

/-- C3: when a background task for the id is present and not done,
`_kickoff_bg` starts no second fetch (`started = false`): it overwrites the
cache entry with the `unknown`/`generating...` placeholder carrying the
fresh timestamp and `details="background refresh already running"`, keeps
the task table entry, and returns that placeholder — so a running fetch is
never joined by a second one for the same id. -/
theorem bg_dedup_no_second_fetch (localDate : Int → Int) (signalId : String)
    (force : Bool) (now : Int) (st : BgEntryState) (h : st.running = true) :
    kickoffBg localDate signalId force now st =
      { result := { status := "unknown", value := "generating...", ts := now,
                    details := some "background refresh already running" },
        state := { running := true,
                   cached := some { status := "unknown", value := "generating...",
                                    ts := now,
                                    details := some "background refresh already running" } },
        started := false } := by
  simp [kickoffBg, h]

/-- C3 witness: concrete instance with a running task. -/
theorem bg_dedup_no_second_fetch_witness :
    kickoffBg (fun t => t) "board_health" true 42
        { running := true, cached := none } =
      { result := { status := "unknown", value := "generating...", ts := 42,
                    details := some "background refresh already running" },
        state := { running := true,
                   cached := some { status := "unknown", value := "generating...",
                                    ts := 42,
                                    details := some "background refresh already running" } },
        started := false } :=
  bg_dedup_no_second_fetch (fun t => t) "board_health" true 42
    { running := true, cached := none } rfl

/-- C2: for `capybara_wisdom` with no running task and a cached result whose
value is truthy and not the placeholder and whose timestamp falls on today
in the configured zone, a non-forced kickoff returns the cached result with
the state unchanged and no task started; a forced kickoff ignores the cache
entirely (any cache state) and starts a new task, returning the
`background refresh started` placeholder. -/
theorem capybara_daily_gate (localDate : Int → Int) (now : Int)
    (st : BgEntryState) (c : SignalResult)
    (hrun : st.running = false) (hc : st.cached = some c)
    (hv1 : c.value ≠ "") (hv2 : c.value ≠ "generating...")
    (hday : localDate c.ts = localDate now) :
    kickoffBg localDate "capybara_wisdom" false now st =
      { result := c, state := st, started := false } ∧
    ∀ st2 : BgEntryState, st2.running = false →
      kickoffBg localDate "capybara_wisdom" true now st2 =
        { result := { status := "unknown", value := "generating...", ts := now,
                      details := some "background refresh started" },
          state := { running := true,
                     cached := some { status := "unknown", value := "generating...",
                                      ts := now,
                                      details := some "background refresh started" } },
          started := true } := by
  constructor
  · simp [kickoffBg, hrun, hc, isTodayLocal, hday, hv1, hv2]
  · intro st2 h2
    cases hcc : st2.cached <;> simp [kickoffBg, h2, hcc, kickoffStart]

/-- C2 witness: concrete gate hit and concrete forced kickoff. -/
theorem capybara_daily_gate_witness :
    kickoffBg (fun t => t / 86400) "capybara_wisdom" false 1200
        { running := false,
          cached := some { status := "ok", value := "stay hydrated", ts := 600 } } =
      { result := { status := "ok", value := "stay hydrated", ts := 600 },
        state := { running := false,
                   cached := some { status := "ok", value := "stay hydrated", ts := 600 } },
        started := false } ∧
    kickoffBg (fun t => t / 86400) "capybara_wisdom" true 1200
        { running := false, cached := none } =
      { result := { status := "unknown", value := "generating...", ts := 1200,
                    details := some "background refresh started" },
        state := { running := true,
                   cached := some { status := "unknown", value := "generating...",
                                    ts := 1200,
                                    details := some "background refresh started" } },
        started := true } := by
  have h := capybara_daily_gate (fun t => t / 86400) 1200
    { running := false,
      cached := some { status := "ok", value := "stay hydrated", ts := 600 } }
    { status := "ok", value := "stay hydrated", ts := 600 }
    rfl rfl (by decide) (by decide) (by decide)
  exact ⟨h.1, h.2 { running := false, cached := none } rfl⟩

/-- C6: `build_views` yields exactly one view per meta, in list order; a
meta whose id is absent from the result map gets the synthesized
`unknown`/`no data yet` view with `age_s = 0` and `ts = now`; a present
result's fields are carried over with `age_s = max(now - ts, 0)`; and no
view ever has a negative `age_s`. -/
theorem build_views_one_view_per_meta (now : Int) (metas : List SignalMeta)
    (results : List (String × SignalResult)) :
    (buildViews now metas results).length = metas.length ∧
    (∀ v ∈ buildViews now metas results, 0 ≤ v.age_s) ∧
    ∀ (i : Nat) (hm : i < metas.length)
      (hv : i < (buildViews now metas results).length),
      (results.lookup (metas.get ⟨i, hm⟩).id = none →
        (buildViews now metas results).get ⟨i, hv⟩ =
          { id := (metas.get ⟨i, hm⟩).id, title := (metas.get ⟨i, hm⟩).title,
            status := "unknown", value := "no data yet", ts := now,
            age_s := 0 }) ∧
      ∀ r, results.lookup (metas.get ⟨i, hm⟩).id = some r →
        (buildViews now metas results).get ⟨i, hv⟩ =
          { id := (metas.get ⟨i, hm⟩).id, title := (metas.get ⟨i, hm⟩).title,
            status := r.status, value := r.value, ts := r.ts,
            age_s := max (now - r.ts) 0, details := r.details,
            link := r.link } := by
  refine ⟨by simp [buildViews], ?_, ?_⟩
  · intro v hvmem
    simp only [buildViews, List.mem_map] at hvmem
    obtain ⟨meta, -, rfl⟩ := hvmem
    unfold viewFor
    cases results.lookup meta.id <;> simp
  · intro i hm hv
    constructor
    · intro hnone
      simp only [List.get_eq_getElem] at hnone
      simp only [buildViews, List.get_eq_getElem, List.getElem_map, viewFor, hnone]
    · intro r hsome
      simp only [List.get_eq_getElem] at hsome
      simp only [buildViews, List.get_eq_getElem, List.getElem_map, viewFor, hsome]

/-- C6 witness: three metas, results for two of them — three views, the
third synthesized as `unknown`/`no data yet` with `age_s = 0`. -/
theorem build_views_one_view_per_meta_witness :
    (buildViews 1000
        [{ id := "a", title := "A" }, { id := "b", title := "B" },
         { id := "c", title := "C" }]
        [("a", { status := "ok", value := "fine", ts := 400 }),
         ("b", { status := "warn", value := "meh", ts := 2000 })]).length = 3 ∧
    (buildViews 1000
        [{ id := "a", title := "A" }, { id := "b", title := "B" },
         { id := "c", title := "C" }]
        [("a", { status := "ok", value := "fine", ts := 400 }),
         ("b", { status := "warn", value := "meh", ts := 2000 })]).get
        ⟨2, by decide⟩ =
      { id := "c", title := "C", status := "unknown", value := "no data yet",
        ts := 1000, age_s := 0 } := by
  have h := build_views_one_view_per_meta 1000
    [{ id := "a", title := "A" }, { id := "b", title := "B" },
     { id := "c", title := "C" }]
    [("a", { status := "ok", value := "fine", ts := 400 }),
     ("b", { status := "warn", value := "meh", ts := 2000 })]
  exact ⟨h.1, (h.2.2 2 (by decide) (by decide)).1 (by decide)⟩

/-- C9: the output of `build_views` depends on the clock reading taken by
the hidden internal `_now_utc()` call at its entry (`core/view.py` line 25):
two calls on identical metadata and results but different clock readings
produce different views, while the source signature
`build_views(metas, results_by_id)` offers the caller no time parameter. -/
theorem build_views_output_depends_on_hidden_clock :
    buildViews 0 [{ id := "a", title := "A" }] [] ≠
      buildViews 1 [{ id := "a", title := "A" }] [] := by
  decide

theorem digitsVal_natDigitsFuel :
    ∀ fuel n, n ≤ fuel → digitsVal (natDigitsFuel fuel n) = n := by
  intro fuel
  induction fuel with
  | zero => intro n hn; interval_cases n; rfl
  | succ f ih =>
      intro n hn
      cases n with
      | zero => rfl
      | succ m =>
          have hdiv : (m + 1) / 10 ≤ f := by
            have h1 : (m + 1) / 10 < m + 1 := Nat.div_lt_self (Nat.succ_pos m) (by norm_num)
            omega
          simp only [natDigitsFuel, digitsVal, ih _ hdiv]
          omega

theorem natDigitsFuel_lt_ten :
    ∀ fuel n d, d ∈ natDigitsFuel fuel n → d < 10 := by
  intro fuel
  induction fuel with
  | zero => intro n d hd; simp [natDigitsFuel] at hd
  | succ f ih =>
      intro n d hd
      cases n with
      | zero => simp [natDigitsFuel] at hd
      | succ m =>
          simp only [natDigitsFuel, List.mem_cons] at hd
          rcases hd with h | h
          · subst h; exact Nat.mod_lt _ (by norm_num)
          · exact ih _ _ h

theorem charDigit_digitChar (d : Nat) (h : d < 10) :
    charDigit (digitChar d) = some d := by
  interval_cases d <;> rfl

theorem digitChar_ne_dash (d : Nat) : digitChar d ≠ '-' := by
  unfold digitChar
  split <;> decide

theorem traverseDigits_map_digitChar (l : List Nat) (h : ∀ d ∈ l, d < 10) :
    traverseDigits (l.map digitChar) = some l := by
  induction l with
  | nil => rfl
  | cons d ds ih =>
      simp only [List.map_cons, traverseDigits]
      rw [charDigit_digitChar d (h d (List.mem_cons_self d ds)),
        ih (fun x hx => h x (List.mem_cons_of_mem d hx))]

theorem natChars_ne_nil (n : Nat) (hn : n ≠ 0) : natChars n ≠ [] := by
  unfold natChars natDigits
  cases n with
  | zero => exact absurd rfl hn
  | succ m => simp [natDigitsFuel]

theorem parseDigits_natChars (n : Nat) (hn : n ≠ 0) :
    parseDigits (natChars n) = some n := by
  have hpd : traverseDigits (natChars n) = some (natDigits n).reverse := by
    unfold natChars
    exact traverseDigits_map_digitChar _
      (fun d hd => natDigitsFuel_lt_ten n n d (List.mem_reverse.mp hd))
  cases hcs : natChars n with
  | nil => exact absurd hcs (natChars_ne_nil n hn)
  | cons c cs =>
      rw [hcs] at hpd
      show (traverseDigits (c :: cs)).map (fun ds => digitsVal ds.reverse) = some n
      rw [hpd]
      simp [List.reverse_reverse, digitsVal_natDigitsFuel n n le_rfl, natDigits]

theorem natChars_head_not_dash (n : Nat) (c : Char) (cs : List Char)
    (h : natChars n = c :: cs) : ¬c = '-' := by
  have hc : c ∈ natChars n := by rw [h]; exact List.mem_cons_self c cs
  unfold natChars at hc
  obtain ⟨d, -, hd⟩ := List.mem_map.mp hc
  rw [← hd]
  exact digitChar_ne_dash d

theorem tsOfIso_cons (c : Char) (cs : List Char) :
    tsOfIso (String.mk (c :: cs)) =
      if c = '-' then (parseDigits cs).map (fun n => -(Int.ofNat n))
      else (parseDigits (c :: cs)).map (fun n => Int.ofNat n) := rfl

theorem tsOfIso_mk_natChars (n : Nat) (hn : n ≠ 0) :
    tsOfIso (String.mk (natChars n)) = some (n : Int) := by
  cases hcs : natChars n with
  | nil => exact absurd hcs (natChars_ne_nil n hn)
  | cons c cs =>
      rw [tsOfIso_cons, if_neg (natChars_head_not_dash n c cs hcs),
        ← hcs, parseDigits_natChars n hn]
      rfl

theorem tsOfIso_isoOfTs (t : Int) : tsOfIso (isoOfTs t) = some t := by
  rcases lt_trichotomy t 0 with hneg | hzero | hpos
  · have hne : t.natAbs ≠ 0 := Int.natAbs_ne_zero.mpr hneg.ne
    unfold isoOfTs
    rw [if_pos hneg, if_neg hne]
    have hdata : ("-" ++ String.mk (natChars t.natAbs)) =
        String.mk ('-' :: natChars t.natAbs) := rfl
    rw [hdata, tsOfIso_cons, if_pos rfl, parseDigits_natChars _ hne]
    have habs : ((t.natAbs : Nat) : Int) = -t := Int.ofNat_natAbs_of_nonpos hneg.le
    simp [Int.ofNat_eq_coe, habs]
  · subst hzero; decide
  · have hne : t.natAbs ≠ 0 := Int.natAbs_ne_zero.mpr hpos.ne.symm
    unfold isoOfTs
    rw [if_neg (not_lt.mpr hpos.le), if_neg hne, tsOfIso_mk_natChars _ hne,
      Int.natAbs_of_nonneg hpos.le]

theorem deserialize_serialize (r : SignalResult) :
    deserializeResult (serializeResult r) = some r := by
  obtain ⟨st, v, ts, d, l⟩ := r
  have e1 : (("value" == "status") : Bool) = false := by decide
  have e2 : (("ts" == "status") : Bool) = false := by decide
  have e3 : (("ts" == "value") : Bool) = false := by decide
  have e4 : (("details" == "status") : Bool) = false := by decide
  have e5 : (("details" == "value") : Bool) = false := by decide
  have e6 : (("details" == "ts") : Bool) = false := by decide
  have e7 : (("link" == "status") : Bool) = false := by decide
  have e8 : (("link" == "value") : Bool) = false := by decide
  have e9 : (("link" == "ts") : Bool) = false := by decide
  have e10 : (("link" == "details") : Bool) = false := by decide
  unfold serializeResult deserializeResult jsonGet
  simp only [List.lookup, e1, e2, e3, e4, e5, e6, e7, e8, e9, e10,
    beq_self_eq_true]
  rw [tsOfIso_isoOfTs ts]
  cases d <;> cases l <;> simp [jsonOfOptStr, optStrOfJson]

theorem deserializeEntries_map (m : List (String × SignalResult)) :
    deserializeEntries (m.map (fun e => (e.1, serializeResult e.2))) = some m := by
  induction m with
  | nil => rfl
  | cons e rest ih =>
      simp only [List.map_cons, deserializeEntries, deserialize_serialize e.2, ih]

theorem dictSet_of_not_mem {α : Type} (acc : List (String × α)) (k : String)
    (v : α) (h : k ∉ acc.map Prod.fst) : dictSet acc k v = acc ++ [(k, v)] := by
  induction acc with
  | nil => rfl
  | cons e rest ih =>
      simp only [List.map_cons, List.mem_cons] at h
      push_neg at h
      simp only [dictSet]
      rw [if_neg (by exact fun hk => h.1 hk.symm), ih h.2]
      rfl

theorem foldl_dictSet {α : Type} (m : List (String × α)) :
    ∀ acc : List (String × α), (m.map Prod.fst).Nodup →
    (∀ k ∈ m.map Prod.fst, k ∉ acc.map Prod.fst) →
    m.foldl (fun a e => dictSet a e.1 e.2) acc = acc ++ m := by
  induction m with
  | nil => intro acc _ _; simp
  | cons e rest ih =>
      intro acc hnd hdisj
      simp only [List.map_cons, List.nodup_cons] at hnd
      simp only [List.foldl_cons]
      rw [dictSet_of_not_mem acc e.1 e.2
        (hdisj e.1 (by simp only [List.map_cons]; exact List.mem_cons_self _ _))]
      rw [ih (acc ++ [(e.1, e.2)]) hnd.2 ?_]
      · simp
      · intro k hk
        simp only [List.map_append, List.mem_append, List.map_cons] at hdisj ⊢
        push_neg
        refine ⟨hdisj k (List.mem_cons_of_mem _ hk), ?_⟩
        simp only [List.map_cons, List.map_nil, List.mem_singleton]
        intro hke
        exact hnd.1 (hke ▸ hk)

/-- C4: flushing the in-memory map and loading the flushed document into a
fresh store reproduces the map exactly — every id maps to a result with
identical status, value, details, link and timestamp. -/
theorem cache_flush_load_round_trip (m : List (String × SignalResult))
    (hnd : (m.map Prod.fst).Nodup) :
    loadData [] (.parsed (flushJson m)) = m := by
  simp only [loadData, flushJson, deserializeEntries_map m]
  rw [foldl_dictSet m [] hnd (by simp)]
  simp

/-- C4 witness: a concrete two-entry map, exercising present and absent
optional fields and a negative timestamp, survives the round trip. -/
theorem cache_flush_load_round_trip_witness :
    (([("dog_walk", { status := "ok", value := "42m ago", ts := 1700,
                      details := some "walked", link := some "http://x" }),
       ("meds", { status := "bad", value := "missed", ts := -90 })]
        : List (String × SignalResult)).map Prod.fst).Nodup ∧
    loadData []
        (.parsed (flushJson
          [("dog_walk", { status := "ok", value := "42m ago", ts := 1700,
                          details := some "walked", link := some "http://x" }),
           ("meds", { status := "bad", value := "missed", ts := -90 })])) =
      [("dog_walk", { status := "ok", value := "42m ago", ts := 1700,
                      details := some "walked", link := some "http://x" }),
       ("meds", { status := "bad", value := "missed", ts := -90 })] :=
  ⟨by decide, cache_flush_load_round_trip _ (by decide)⟩

/-- C5: loading a cache file that is not valid JSON — or that parses to a
document other than an object, so that deserialization fails — empties the
store and, being a total function, never raises, whatever the prior
in-memory state. -/
theorem corrupt_cache_file_resets_store :
    (∀ init, loadData init .unreadable = []) ∧
    (∀ init s, loadData init (.parsed (.str s)) = []) ∧
    (∀ init elems, loadData init (.parsed (.arr elems)) = []) ∧
    (∀ init n, loadData init (.parsed (.num n)) = []) :=
  ⟨fun _ => rfl, fun _ _ => rfl, fun _ _ => rfl, fun _ _ => rfl⟩

/-- Any single failing entry makes the whole entry loop fail. -/
theorem deserializeEntries_of_mem_fail (fields : List (String × Json))
    (sid : String) (p : Json) (hmem : (sid, p) ∈ fields)
    (hfail : deserializeResult p = none) :
    deserializeEntries fields = none := by
  induction fields with
  | nil => cases hmem
  | cons e rest ih =>
      rcases List.mem_cons.mp hmem with he | hrest
      · obtain ⟨e1, e2⟩ := e
        obtain ⟨h1, h2⟩ := Prod.mk.injEq .. ▸ he.symm
        simp only [deserializeEntries]
        rw [h2.symm] at hfail
        rw [hfail]
      · obtain ⟨e1, e2⟩ := e
        simp only [deserializeEntries]
        rw [ih hrest]
        cases deserializeResult e2 <;> rfl

/-- C10: if the cache file parses as a JSON object but any one entry fails
to deserialize, `load()` leaves the store empty — every entry, including
the ones already deserialized and any prior in-memory state, is
discarded. -/
theorem partial_entry_failure_discards_all (init : List (String × SignalResult))
    (fields : List (String × Json)) (sid : String) (p : Json)
    (hmem : (sid, p) ∈ fields) (hfail : deserializeResult p = none) :
    loadData init (.parsed (.obj fields)) = [] := by
  simp only [loadData, deserializeEntries_of_mem_fail fields sid p hmem hfail]

/-- C10 witness: a nonempty store, a file whose first entry is valid and
whose second lacks the required keys — the load empties the store. -/
theorem partial_entry_failure_discards_all_witness :
    ("broken", Json.obj []) ∈
      [("good", serializeResult { status := "ok", value := "v", ts := 5 }),
       ("broken", Json.obj [])] ∧
    deserializeResult (Json.obj []) = none ∧
    deserializeResult
      (serializeResult { status := "ok", value := "v", ts := 5 }) =
      some { status := "ok", value := "v", ts := 5 } ∧
    loadData [("keep", { status := "warn", value := "w", ts := 9 })]
        (.parsed (.obj
          [("good", serializeResult { status := "ok", value := "v", ts := 5 }),
           ("broken", Json.obj [])])) = [] :=
  ⟨List.mem_cons_of_mem _ (List.mem_cons_self _ _), rfl, by decide,
    partial_entry_failure_discards_all _ _ "broken" (Json.obj [])
      (List.mem_cons_of_mem _ (List.mem_cons_self _ _)) rfl⟩

theorem count_some_reduceOption (l : List (Option String)) (s : String) :
    l.reduceOption.count s = l.count (some s) := by
  induction l with
  | nil => rfl
  | cons x xs ih =>
      cases x with
      | none => simp [List.reduceOption_cons_of_none, ih, List.count_cons]
      | some y => simp [List.reduceOption_cons_of_some, ih, List.count_cons]

theorem loadGo_ok_nodup :
    ∀ (mods : List PyModule) (reg out : List (String × SigDecl)),
    (reg.map Prod.fst).Nodup → loadGo mods reg = .ok out →
    (¬ none ∈ declIds mods) ∧
    ((reg.map Prod.fst) ++ (declIds mods).reduceOption).Nodup := by
  intro mods
  induction mods with
  | nil =>
      intro reg out hr _
      simpa [declIds] using hr
  | cons m rest ih =>
      intro reg out hr h
      by_cases hskip : skippedModule m = true
      · rw [show loadGo (m :: rest) reg = loadGo rest reg by
          simp [loadGo, hskip]] at h
        simpa [declIds, hskip] using ih reg out hr h
      · rw [Bool.not_eq_true] at hskip
        cases hsig : m.signal with
        | none =>
            rw [show loadGo (m :: rest) reg = loadGo rest reg by
              simp [loadGo, hskip, hsig]] at h
            simpa [declIds, hskip, hsig] using ih reg out hr h
        | some sig =>
            cases hid : sigIdOf sig with
            | none =>
                rw [show loadGo (m :: rest) reg =
                    .error (m.name ++ ".SIGNAL missing meta.id") by
                  simp [loadGo, hskip, hsig, hid]] at h
                cases h
            | some sid =>
                by_cases hdup : sid ∈ reg.map Prod.fst
                · rw [show loadGo (m :: rest) reg =
                      .error ("Duplicate signal id: " ++ sid) by
                    simp [loadGo, hskip, hsig, hid, hdup]] at h
                  cases h
                · rw [show loadGo (m :: rest) reg =
                      loadGo rest (reg ++ [(sid, sig)]) by
                    simp [loadGo, hskip, hsig, hid, hdup]] at h
                  have hr2 : ((reg ++ [(sid, sig)]).map Prod.fst).Nodup := by
                    simp only [List.map_append, List.map_cons, List.map_nil]
                    rw [List.nodup_append]
                    exact ⟨hr, List.nodup_singleton sid,
                      by simpa [List.disjoint_singleton] using hdup⟩
                  obtain ⟨h1, h2⟩ := ih (reg ++ [(sid, sig)]) out hr2 h
                  constructor
                  · simp [declIds, hskip, hsig, hid, h1]
                  · simp only [List.map_append, List.map_cons, List.map_nil] at h2
                    rw [List.append_assoc] at h2
                    simpa [declIds, hskip, hsig, hid,
                      List.reduceOption_cons_of_some] using h2

/-- C7: discovery fails with a hard error — and registry reload therefore
propagates that error rather than registering anything — whenever two
examined probes declare the same signal id, or an examined probe lacks
usable identifying metadata (`meta.id`). -/
theorem discovery_rejects_duplicate_and_missing_ids (mods : List PyModule)
    (h : (∃ s, 2 ≤ (declIds mods).count (some s)) ∨ none ∈ declIds mods) :
    (∃ e, loadSignals mods = .error e) ∧
    (∃ e, reloadRegistry mods = .error e) := by
  have herr : ∃ e, loadSignals mods = .error e := by
    cases hres : loadSignals mods with
    | error e => exact ⟨e, rfl⟩
    | ok out =>
        obtain ⟨hnone, hnd⟩ := loadGo_ok_nodup mods [] out (by simp) hres
        simp only [List.map_nil, List.nil_append] at hnd
        rcases h with ⟨s, hcount⟩ | hmemnone
        · have h1 : (declIds mods).reduceOption.count s ≤ 1 :=
            List.nodup_iff_count_le_one.mp hnd s
          rw [count_some_reduceOption] at h1
          omega
        · exact absurd hmemnone hnone
  obtain ⟨e, he⟩ := herr
  exact ⟨⟨e, he⟩, ⟨e, by simp [reloadRegistry, he]⟩⟩

/-- C7 witness: two modules declaring the same id make discovery and
reload fail. -/
theorem discovery_rejects_duplicate_and_missing_ids_witness :
    2 ≤ (declIds
      [{ name := "alpha", signal := some { meta := some { id := "dup", title := "Alpha" } } },
       { name := "beta", signal := some { meta := some { id := "dup", title := "Beta" } } }]).count
      (some "dup") ∧
    (∃ e, loadSignals
      [{ name := "alpha", signal := some { meta := some { id := "dup", title := "Alpha" } } },
       { name := "beta", signal := some { meta := some { id := "dup", title := "Beta" } } }] = .error e) ∧
    (∃ e, reloadRegistry
      [{ name := "alpha", signal := some { meta := some { id := "dup", title := "Alpha" } } },
       { name := "beta", signal := some { meta := some { id := "dup", title := "Beta" } } }] = .error e) := by
  have h := discovery_rejects_duplicate_and_missing_ids
    [{ name := "alpha", signal := some { meta := some { id := "dup", title := "Alpha" } } },
     { name := "beta", signal := some { meta := some { id := "dup", title := "Beta" } } }]
    (Or.inl ⟨"dup", by decide⟩)
  exact ⟨by decide, h.1, h.2⟩

end SignalBoard
